import Mathlib

/-!
Shallow embedding of `atoms_core/entities/atom.py` (the `Atom` entity of the
atoms-core repository) and proofs about its behaviour.

Modelling conventions:
* Python `None`-able parameters and fields become `Option`.
* The JSON manifest dictionary read and written by `Atom.to_dict`,
  `Atom.from_dict`, `Atom.save` and `Atom.load` becomes the record
  `AtomDict`, where `none` models an absent key (for the five required
  fields it equally models a `null` value, since `dict.get` returns `None`
  in both cases and the code only ever compares against `None`).
* Raised exceptions become `Except` error results.  The module imports only
  `AtomsWrongAtomData` and `AtomsConfigFileNotFound` from
  `atoms_core.exceptions.atom`; the names `AtomsCannotSavePodmanContainers`
  and `AtomsCannotRenamePodmanContainers` used at the `raise` sites in
  `save`/`rename` are never bound in the module, so at run time CPython
  raises `NameError` when those statements execute.  This is modelled by the
  `AtomError.unresolvedName` constructor carrying the unresolved class name.
* File I/O is made explicit: `save` returns the manifest record it would
  write (an error result writes nothing), `load` takes the manifest file
  contents (`none` models a missing file, triggering `FileNotFoundError`).
* External collaborators (the path resolver `AtomsPathsUtils.get_atom_path`
  with its ambient configuration, the proot and distrobox wrappers, the
  `$SHELL` environment variable and the generated launcher-script path) are
  passed in as explicit function/string parameters.
-/

namespace AtomsCore

/-- Python's `str.strip()` on a list of characters: drop whitespace from both
ends (drop from the left, reverse, drop from the left again, reverse back). -/
def stripList {α : Type} (p : α → Bool) (l : List α) : List α :=
  ((l.dropWhile p).reverse.dropWhile p).reverse

/-- Python's `str.strip()` with no argument: strip whitespace from both ends
of the string, as used by `Atom.__init__` (`self.name = name.strip()`). -/
def pyStrip (s : String) : String :=
  ⟨stripList Char.isWhitespace s.data⟩

/-- Python truthiness of an optional string (`if container_id:`):
`None` and the empty string are falsy, every other string is truthy. -/
def pyTruthy (o : Option String) : Bool :=
  match o with
  | none => false
  | some s => !(s == "")

/-- Errors raised by the `Atom` entity code.  `AtomsWrongAtomData` and
`AtomsConfigFileNotFound` are the two exception classes the module actually
imports; `unresolvedName s` models the `NameError` CPython raises when a
`raise` statement references the class name `s` that is not bound in the
module (the case of `AtomsCannotSavePodmanContainers` and
`AtomsCannotRenamePodmanContainers`). -/
inductive AtomError where
  | AtomsWrongAtomData : AtomError
  | AtomsConfigFileNotFound : AtomError
  | unresolvedName (className : String) : AtomError
  deriving DecidableEq

/-- The `Atom` entity: one field per attribute assigned in
`Atom.__init__` (the `_instance` back-reference and the wrapper objects are
kept outside the state; collaborators are passed explicitly where used). -/
@[ext]
structure Atom where
  name : String
  distribution_id : Option String
  relative_path : Option String
  creation_date : Option String
  update_date : Option String
  container_id : Option String
  container_image : Option String
  system_shell : Bool
  bind_themes : Bool
  bind_icons : Bool
  bind_fonts : Bool
  bind_extra_mounts : List (String × String)
  deriving DecidableEq

/-- `Atom.__init__`.  `now` models `datetime.datetime.now().isoformat()`.
The parameter order follows the Python signature: name, distribution_id,
relative_path, creation_date, update_date, container_id, container_image,
system_shell, bind_themes, bind_icons, bind_fonts, bind_extra_mounts. -/
def Atom.init (now : String) (name : String)
    (distribution_id : Option String) (relative_path : Option String)
    (creation_date : Option String) (update_date : Option String)
    (container_id : Option String) (container_image : Option String)
    (system_shell : Bool) (bind_themes : Bool) (bind_icons : Bool)
    (bind_fonts : Bool)
    (bind_extra_mounts : Option (List (String × String))) : Atom :=
  let update_date :=
    if update_date = none ∧ (pyTruthy container_id ∨ system_shell) then some now
    else if update_date = none then creation_date
    else update_date
  { name := pyStrip name
    distribution_id := distribution_id
    relative_path := relative_path
    creation_date := creation_date
    update_date := update_date
    container_id := container_id
    container_image := container_image
    system_shell := system_shell
    bind_themes := bind_themes
    bind_icons := bind_icons
    bind_fonts := bind_fonts
    bind_extra_mounts := bind_extra_mounts.getD [] }

/-- `Atom.is_distrobox_container`: `self.container_id is not None`. -/
def Atom.is_distrobox_container (a : Atom) : Bool :=
  a.container_id.isSome

/-- `Atom.is_system_shell`: returns the private `__system_shell` flag. -/
def Atom.is_system_shell (a : Atom) : Bool :=
  a.system_shell

/-- The manifest dictionary (`atom.json`).  `none` models an absent key. -/
structure AtomDict where
  name : Option String
  distributionId : Option String
  relativePath : Option String
  creationDate : Option String
  updateDate : Option String
  bindThemes : Option Bool
  bindIcons : Option Bool
  bindFonts : Option Bool
  bindExtraMounts : Option (List (String × String))
  deriving DecidableEq

/-- `Atom.to_dict`. -/
def Atom.to_dict (a : Atom) : AtomDict :=
  { name := some a.name
    distributionId := a.distribution_id
    relativePath := a.relative_path
    creationDate := a.creation_date
    updateDate := a.update_date
    bindThemes := some a.bind_themes
    bindIcons := some a.bind_icons
    bindFonts := some a.bind_fonts
    bindExtraMounts := some a.bind_extra_mounts }

/-- `Atom.from_dict`: raises `AtomsWrongAtomData` when any of the five
required keys is missing (or `null`); fills the extra default options
(`bindThemes`/`bindIcons`/`bindFonts` false, `bindExtraMounts` empty) for
absent keys; then calls the constructor with `container_id = None` and
`system_shell = False`.  The constructor's `now` argument is irrelevant here
because `updateDate` is present, so it is passed as `""`. -/
def Atom.from_dict (data : AtomDict) : Except AtomError Atom :=
  if data.name = none ∨ data.distributionId = none ∨ data.creationDate = none ∨
      data.updateDate = none ∨ data.relativePath = none then
    .error .AtomsWrongAtomData
  else
    .ok (Atom.init "" (data.name.getD "") data.distributionId data.relativePath
      data.creationDate data.updateDate none none false
      (data.bindThemes.getD false) (data.bindIcons.getD false)
      (data.bindFonts.getD false) (some (data.bindExtraMounts.getD [])))

/-- `Atom.load`: `file` is the contents of `<atom path>/atom.json`, with
`none` modelling a missing file (`FileNotFoundError`, re-raised as
`AtomsConfigFileNotFound`). -/
def Atom.load (file : Option AtomDict) : Except AtomError Atom :=
  match file with
  | none => .error .AtomsConfigFileNotFound
  | some data => Atom.from_dict data

/-- `Atom.load_from_container`: constructor call with keyword arguments
`creation_date`, `container_id`, `container_image`. -/
def Atom.load_from_container (now : String) (creation_date : String)
    (container_name : String) (container_image : String)
    (container_id : String) : Atom :=
  Atom.init now container_name none none (some creation_date) none
    (some container_id) (some container_image) false false false false none

/-- `Atom.new_system_shell`: `cls(instance, "system-shell", system_shell=True)`. -/
def Atom.new_system_shell (now : String) : Atom :=
  Atom.init now "system-shell" none none none none none none true
    false false false none

/-- `Atom.save`: raises on distrobox/system-shell entities — the raised name
`AtomsCannotSavePodmanContainers` is not imported by the module, so the
statement produces a `NameError` for that name before any file is opened.
Otherwise returns the manifest record written to `<path>/atom.json`. -/
def Atom.save (a : Atom) : Except AtomError AtomDict :=
  if a.is_distrobox_container || a.system_shell then
    .error (.unresolvedName "AtomsCannotSavePodmanContainers")
  else
    .ok a.to_dict

/-- `Atom.rename`: raises (unimported name `AtomsCannotRenamePodmanContainers`,
hence a `NameError`) on distrobox/system-shell entities before any mutation;
otherwise assigns `self.name = new_name` (no stripping) and calls `save`.
The result pairs the post-call entity state with the outcome of the call. -/
def Atom.rename (a : Atom) (new_name : String) :
    Atom × Except AtomError AtomDict :=
  if a.is_distrobox_container || a.system_shell then
    (a, .error (.unresolvedName "AtomsCannotRenamePodmanContainers"))
  else
    let a2 := { a with name := new_name }
    (a2, a2.save)

/-- `Atom.set_bind_themes`: assigns the flag, then calls `save`.  The result
pairs the post-call entity state with the outcome of the `save` call. -/
def Atom.set_bind_themes (a : Atom) (status : Bool) :
    Atom × Except AtomError AtomDict :=
  let a2 := { a with bind_themes := status }
  (a2, a2.save)

/-- `Atom.set_bind_icons`: assigns the flag, then calls `save`. -/
def Atom.set_bind_icons (a : Atom) (status : Bool) :
    Atom × Except AtomError AtomDict :=
  let a2 := { a with bind_icons := status }
  (a2, a2.save)

/-- `Atom.set_bind_fonts`: assigns the flag, then calls `save`. -/
def Atom.set_bind_fonts (a : Atom) (status : Bool) :
    Atom × Except AtomError AtomDict :=
  let a2 := { a with bind_fonts := status }
  (a2, a2.save)

/-- `os.path.join` for the path shapes used here (plain relative segments). -/
def pathJoin (a b : String) : String := a ++ "/" ++ b

/-- `Atom.path`: empty for distrobox/system-shell entities, else the atom
directory produced by the path resolver `gap` (modelling
`AtomsPathsUtils.get_atom_path(self._instance.config, self.relative_path)`). -/
def Atom.path (gap : Option String → String) (a : Atom) : String :=
  if a.is_distrobox_container || a.system_shell then "" else gap a.relative_path

/-- `Atom.fs_path`: empty for distrobox/system-shell entities, else
`os.path.join(get_atom_path(...), "chroot")`. -/
def Atom.fs_path (gap : Option String → String) (a : Atom) : String :=
  if a.is_distrobox_container || a.system_shell then ""
  else pathJoin (gap a.relative_path) "chroot"

/-- `Atom.root_path`: empty for distrobox/system-shell entities, else
`os.path.join(self.fs_path, "root")`. -/
def Atom.root_path (gap : Option String → String) (a : Atom) : String :=
  if a.is_distrobox_container || a.system_shell then ""
  else pathJoin (a.fs_path gap) "root"

/-- The mount pair appended for `bind_themes`. -/
def themesMount : String × String := ("/usr/share/themes", "/usr/share/themes")

/-- The mount pair appended for `bind_icons`. -/
def iconsMount : String × String := ("/usr/share/icons", "/usr/share/icons")

/-- The mount pair appended for `bind_fonts`. -/
def fontsMount : String × String := ("/usr/share/fonts", "/usr/share/fonts")

/-- `Atom.bind_mounts`: appends the themes, icons and fonts pairs for the
set flags, in that order, then the extra mounts (the Python guard
`if self.bind_extra_mounts:` skips an empty list, which appends nothing
either way). -/
def Atom.bind_mounts (a : Atom) : List (String × String) :=
  let mounts : List (String × String) := []
  let mounts := if a.bind_themes then mounts ++ [themesMount] else mounts
  let mounts := if a.bind_icons then mounts ++ [iconsMount] else mounts
  let mounts := if a.bind_fonts then mounts ++ [fontsMount] else mounts
  let mounts :=
    if !a.bind_extra_mounts.isEmpty then mounts ++ a.bind_extra_mounts
    else mounts
  mounts

/-- The `(command, environment, working_directory)` triple returned by
`Atom.generate_command` and its branch helpers. -/
structure CmdTriple where
  command : List String
  environment : List String
  working_directory : String
  deriving DecidableEq

/-- `Atom.__generate_distrobox_command`: wraps the command via the distrobox
wrapper `dw` (modelling
`get_distrobox_command_for_container(self.container_id, command)`); a `None`
environment defaults to `[]`; the working directory is `self.root_path`. -/
def Atom.generate_distrobox_command (gap : Option String → String)
    (dw : Option String → List String → List String)
    (a : Atom) (command : List String)
    (environment : Option (List String)) : CmdTriple :=
  { command := dw a.container_id command
    environment := environment.getD []
    working_directory := a.root_path gap }

/-- `Atom.__generate_proot_command`: wraps the command via the proot wrapper
`pw` (modelling
`get_proot_command_for_chroot(self.fs_path, command, bind_mounts=...)`);
a `None` environment defaults to `[]`; working directory `self.root_path`. -/
def Atom.generate_proot_command (gap : Option String → String)
    (pw : String → List String → List (String × String) → List String)
    (a : Atom) (command : List String)
    (environment : Option (List String)) : CmdTriple :=
  { command := pw (a.fs_path gap) command a.bind_mounts
    environment := environment.getD []
    working_directory := a.root_path gap }

/-- `Atom.__generate_system_shell_command`: `[os.environ["SHELL"]]`, empty
environment, working directory `/`. -/
def generate_system_shell_command (shell : String) : CmdTriple :=
  { command := [shell], environment := [], working_directory := "/" }

/-- `Atom.generate_command`: dispatches on `is_distrobox_container` first,
then the system-shell flag, else the proot (chroot) branch; when
`track_exit` is set, prepends `["sh", <launcher script>]` to the command.
`shell` models `os.environ["SHELL"]` and `launcher` the temp-file path
returned by `__get_launcher_script`. -/
def Atom.generate_command (gap : Option String → String)
    (pw : String → List String → List (String × String) → List String)
    (dw : Option String → List String → List String)
    (shell : String) (launcher : String)
    (a : Atom) (command : List String) (environment : Option (List String))
    (track_exit : Bool) : CmdTriple :=
  let t :=
    if a.is_distrobox_container then
      a.generate_distrobox_command gap dw command environment
    else if a.system_shell then
      generate_system_shell_command shell
    else
      a.generate_proot_command gap pw command environment
  if track_exit then { t with command := ["sh", launcher] ++ t.command } else t

/-- Helper: the head of a `dropWhile p` result never satisfies `p`. -/
theorem dropWhile_head_eq_false {α : Type} (p : α → Bool) :
    ∀ (l : List α) (a : α), (l.dropWhile p).head? = some a → p a = false := by
  intro l
  induction l with
  | nil => intro a h; simp [List.dropWhile] at h
  | cons b t ih =>
      intro a h
      cases hb : p b with
      | true =>
          rw [List.dropWhile_cons, hb, if_pos rfl] at h
          exact ih a h
      | false =>
          rw [List.dropWhile_cons, hb] at h
          simp at h
          cases h
          exact hb

/-- Helper: `dropWhile` is idempotent. -/
theorem dropWhile_dropWhile {α : Type} (p : α → Bool) (l : List α) :
    (l.dropWhile p).dropWhile p = l.dropWhile p := by
  induction l with
  | nil => rfl
  | cons b t ih =>
      cases hb : p b with
      | true => rw [List.dropWhile_cons, hb]; simpa using ih
      | false => rw [List.dropWhile_cons, hb]; simp [List.dropWhile_cons, hb]

/-- Helper: `dropWhile p` leaves a list whose head fails `p` unchanged. -/
theorem dropWhile_eq_self_of_head {α : Type} (p : α → Bool) (l : List α)
    (h : ∀ a, l.head? = some a → p a = false) : l.dropWhile p = l := by
  cases l with
  | nil => rfl
  | cons b t => rw [List.dropWhile_cons, h b rfl]; simp

/-- Stripping from both ends is idempotent. -/
theorem stripList_idem {α : Type} (p : α → Bool) (l : List α) :
    stripList p (stripList p l) = stripList p l := by
  unfold stripList
  have hdecomp : l.dropWhile p =
      ((l.dropWhile p).reverse.dropWhile p).reverse ++
        ((l.dropWhile p).reverse.takeWhile p).reverse := by
    calc l.dropWhile p = ((l.dropWhile p).reverse).reverse :=
          (List.reverse_reverse _).symm
    _ = ((l.dropWhile p).reverse.takeWhile p ++
          (l.dropWhile p).reverse.dropWhile p).reverse := by
          rw [List.takeWhile_append_dropWhile p (l.dropWhile p).reverse]
    _ = ((l.dropWhile p).reverse.dropWhile p).reverse ++
          ((l.dropWhile p).reverse.takeWhile p).reverse := by
          rw [List.reverse_append]
  have h1 : (((l.dropWhile p).reverse.dropWhile p).reverse).dropWhile p
      = ((l.dropWhile p).reverse.dropWhile p).reverse := by
    apply dropWhile_eq_self_of_head
    intro a ha
    apply dropWhile_head_eq_false p l
    rw [hdecomp]
    cases hc : ((l.dropWhile p).reverse.dropWhile p).reverse with
    | nil => rw [hc] at ha; simp at ha
    | cons c t =>
        rw [hc] at ha
        simp at ha
        rw [ha]
        rfl
  rw [h1, List.reverse_reverse, dropWhile_dropWhile]

/-- Python's `str.strip()` is idempotent. -/
theorem pyStrip_idem (s : String) : pyStrip (pyStrip s) = pyStrip s :=
  congrArg String.mk (stripList_idem Char.isWhitespace s.data)

/-- Claim C1: backend discrimination follows the fixed priority order.  An
Atom constructed with a non-empty `container_id` reports
`is_distrobox_container = true` regardless of all other fields; one
constructed with the system-shell flag reports `is_system_shell = true` even
if a `container_id` was also supplied; and `generate_command` dispatches by
checking `container_id` first (distrobox branch), then the system-shell
flag, else the chroot (proot) branch. -/
theorem atom_backend_priority
    (now name : String) (did rp cd ud cimg : Option String) (cid : String)
    (ssh bt bi bf : Bool) (bem : Option (List (String × String)))
    (gap : Option String → String)
    (pw : String → List String → List (String × String) → List String)
    (dw : Option String → List String → List String)
    (shell launcher : String) (cmd : List String) (env : Option (List String))
    (te : Bool) (_hcid : cid ≠ "") :
    (Atom.init now name did rp cd ud (some cid) cimg ssh bt bi bf bem).is_distrobox_container
        = true
    ∧ (Atom.init now name did rp cd ud (some cid) cimg true bt bi bf bem).is_system_shell
        = true
    ∧ (Atom.init now name did rp cd ud (some cid) cimg ssh bt bi bf bem).generate_command
          gap pw dw shell launcher cmd env te
        = (if te then
            { command := ["sh", launcher] ++ dw (some cid) cmd
              environment := env.getD []
              working_directory := "" }
           else
            { command := dw (some cid) cmd
              environment := env.getD []
              working_directory := "" })
    ∧ (Atom.init now name did rp cd ud none cimg true bt bi bf bem).generate_command
          gap pw dw shell launcher cmd env te
        = (if te then
            { command := ["sh", launcher, shell]
              environment := []
              working_directory := "/" }
           else
            { command := [shell], environment := [], working_directory := "/" })
    ∧ (Atom.init now name did rp cd ud none cimg false bt bi bf bem).generate_command
          gap pw dw shell launcher cmd env te
        = (let a := Atom.init now name did rp cd ud none cimg false bt bi bf bem
           if te then
            { command := ["sh", launcher] ++ pw (a.fs_path gap) cmd a.bind_mounts
              environment := env.getD []
              working_directory := a.root_path gap }
           else
            { command := pw (a.fs_path gap) cmd a.bind_mounts
              environment := env.getD []
              working_directory := a.root_path gap }) := by
  refine ⟨rfl, rfl, ?_, ?_, ?_⟩ <;> cases te <;> rfl

/-- Claim C1 witness: the priority order at concrete inputs. -/
theorem atom_backend_priority_witness :
    (Atom.init "" "a" none none none none (some "c") none true false false false
        none).is_distrobox_container = true :=
  (atom_backend_priority "" "a" none none none none none "c" true false false
    false none (fun _ => "") (fun _ _ _ => []) (fun _ _ => []) "" "" [] none
    true (by decide)).1

/-- Claim C2: for every valid Chroot Atom (built by the constructor with a
distribution id, relative path and creation date, no container id and no
system-shell flag), `save` returns the manifest record and `load` of that
record reproduces the atom exactly — every persisted field, including
bind-mount fields that came from the defaults. -/
theorem atom_save_load_roundtrip (now name did rp cd : String)
    (ud : Option String) (bt bi bf : Bool)
    (bem : Option (List (String × String))) :
    (Atom.init now name (some did) (some rp) (some cd) ud none none false
        bt bi bf bem).save
      = .ok (Atom.init now name (some did) (some rp) (some cd) ud none none
        false bt bi bf bem).to_dict
    ∧ Atom.load (some (Atom.init now name (some did) (some rp) (some cd) ud
        none none false bt bi bf bem).to_dict)
      = .ok (Atom.init now name (some did) (some rp) (some cd) ud none none
        false bt bi bf bem) := by
  constructor
  · rfl
  · cases ud with
    | none =>
        simp [Atom.load, Atom.from_dict, Atom.to_dict, Atom.init, pyTruthy,
          pyStrip_idem]
    | some u =>
        simp [Atom.load, Atom.from_dict, Atom.to_dict, Atom.init, pyTruthy,
          pyStrip_idem]

/-- Claim C3 (code-bug evidence): `save` on a distrobox-container atom and on
the system-shell atom fails before any file is opened and produces no
manifest record — but the failure is the `NameError` for the unimported
class name `AtomsCannotSavePodmanContainers` (the module never imports that
exception), not the typed exception the claim names. -/
theorem atom_save_container_fails_unresolved :
    (Atom.load_from_container "now" "cd" "box" "img" "cid").save
        = .error (.unresolvedName "AtomsCannotSavePodmanContainers")
    ∧ (Atom.new_system_shell "now").save
        = .error (.unresolvedName "AtomsCannotSavePodmanContainers") :=
  ⟨rfl, rfl⟩

/-- Claim C4 counterexample: constructing an Atom whose name is whitespace
only is not rejected — `Atom.__init__` performs no emptiness check, so the
construction succeeds and stores the empty string as the name. -/
theorem atom_init_blank_name_accepted :
    (Atom.init "" "   " none none none none none none false false false false
        none).name = "" := by
  decide

/-- Claim C4 amended: construction never rejects a name; for every input
name the stored name is the whitespace-trimmed form of the input (so a
whitespace-only input yields the empty stored name). -/
theorem atom_init_trims_name (now name : String)
    (did rp cd ud cid cimg : Option String) (ssh bt bi bf : Bool)
    (bem : Option (List (String × String))) :
    (Atom.init now name did rp cd ud cid cimg ssh bt bi bf bem).name
      = pyStrip name :=
  rfl

/-- Claim C5: when any of the five required manifest fields (`name`,
`distributionId`, `creationDate`, `updateDate`, `relativePath`) is missing,
`from_dict` (and hence `load`) fails with `AtomsWrongAtomData` and returns
no Atom; and `load` of an absent manifest file fails with
`AtomsConfigFileNotFound`. -/
theorem atom_load_missing_field_fails (d : AtomDict)
    (h : d.name = none ∨ d.distributionId = none ∨ d.creationDate = none ∨
      d.updateDate = none ∨ d.relativePath = none) :
    Atom.from_dict d = .error .AtomsWrongAtomData
    ∧ Atom.load (some d) = .error .AtomsWrongAtomData
    ∧ Atom.load none = .error .AtomsConfigFileNotFound := by
  refine ⟨?_, ?_, rfl⟩
  · unfold Atom.from_dict
    rw [if_pos h]
  · show Atom.from_dict d = _
    unfold Atom.from_dict
    rw [if_pos h]

/-- Claim C5 witness: a manifest missing `creationDate` is rejected. -/
theorem atom_load_missing_field_fails_witness :
    Atom.load (some ⟨some "n", some "d", some "r", none, some "u", none, none,
        none, none⟩) = .error .AtomsWrongAtomData :=
  (atom_load_missing_field_fails
    ⟨some "n", some "d", some "r", none, some "u", none, none, none, none⟩
    (by decide)).2.1

/-- Claim C6 (code-bug evidence): `rename` on a distrobox-container atom
fails before the name assignment, leaving the name unchanged and persisting
nothing — but the failure is the `NameError` for the unimported class name
`AtomsCannotRenamePodmanContainers`, not the typed exception the claim
names.  On a Chroot atom, `rename` stores the new name as given and
re-persists the manifest. -/
theorem atom_rename_container_fails_unresolved :
    (Atom.load_from_container "now" "cd" "box" "img" "cid").rename "newname"
        = (Atom.load_from_container "now" "cd" "box" "img" "cid",
            .error (.unresolvedName "AtomsCannotRenamePodmanContainers"))
    ∧ ((Atom.load_from_container "now" "cd" "box" "img" "cid").rename
        "newname").1.name = "box"
    ∧ ((Atom.init "" "nm" (some "d") (some "r") (some "c") none none none
        false false false false none).rename "renamed").1.name = "renamed"
    ∧ ((Atom.init "" "nm" (some "d") (some "r") (some "c") none none none
        false false false false none).rename "renamed").2
        = .ok (((Atom.init "" "nm" (some "d") (some "r") (some "c") none none
            none false false false false none).rename "renamed").1.to_dict) := by
  refine ⟨rfl, ?_, rfl, rfl⟩
  decide

/-- Claim C7: for every distrobox-container Atom, `generate_command` returns
a triple whose working directory is the entity's `root_path` (which, for a
container atom, is the empty string — the code short-circuits all path
properties for non-chroot backends) and whose command is the input command
wrapped by the distrobox wrapper for the atom's container id (prefixed by
the launcher script when `track_exit` is set). -/
theorem atom_distrobox_command_triple (gap : Option String → String)
    (pw : String → List String → List (String × String) → List String)
    (dw : Option String → List String → List String)
    (shell launcher : String) (a : Atom) (cmd : List String)
    (env : Option (List String)) (te : Bool)
    (h : a.is_distrobox_container = true) :
    (a.generate_command gap pw dw shell launcher cmd env te).working_directory
        = a.root_path gap
    ∧ (a.generate_command gap pw dw shell launcher cmd env te).command
        = (if te then ["sh", launcher] ++ dw a.container_id cmd
           else dw a.container_id cmd)
    ∧ a.root_path gap = "" := by
  have hroot : a.root_path gap = "" := by
    unfold Atom.root_path
    rw [h]
    rfl
  cases te <;>
    simp [Atom.generate_command, Atom.generate_distrobox_command, h, hroot]

/-- Claim C7 witness: the triple at a concrete container atom. -/
theorem atom_distrobox_command_triple_witness :
    (Atom.load_from_container "now" "cd" "box" "img" "cid").root_path
        (fun _ => "/p") = "" :=
  (atom_distrobox_command_triple (fun _ => "/p") (fun _ _ _ => [])
    (fun _ c => "distrobox-enter" :: c) "bash" "/tmp/l"
    (Atom.load_from_container "now" "cd" "box" "img" "cid") ["ls"] none true
    rfl).2.2

/-- Claim C8 counterexample: with `bind_themes` unset but the themes pair
occurring in the user-supplied extra mounts, the resolved list contains the
themes pair even though the flag is false, so "contains the themes pair if
and only if bindThemes is set" fails as stated for arbitrary extra-mount
lists. -/
theorem atom_bind_mounts_iff_counterexample :
    ¬ ((themesMount ∈ (Atom.init "" "x" none none none none none none false
          false false false (some [themesMount])).bind_mounts)
        ↔ (Atom.init "" "x" none none none none none none false false false
          false (some [themesMount])).bind_themes = true) := by
  decide

/-- Claim C8 amended: for every combination of the three flags and every
extra-mounts list, the resolved bind-mount list is exactly the flag-selected
pairs — the themes pair present iff `bind_themes`, then the icons pair iff
`bind_icons`, then the fonts pair iff `bind_fonts` — followed by the extra
mounts, in that fixed order.  (The membership biconditional on the whole
list holds whenever the pair in question does not itself occur among the
extra mounts.) -/
theorem atom_bind_mounts_order (a : Atom) :
    a.bind_mounts = (if a.bind_themes then [themesMount] else [])
      ++ (if a.bind_icons then [iconsMount] else [])
      ++ (if a.bind_fonts then [fontsMount] else [])
      ++ a.bind_extra_mounts := by
  unfold Atom.bind_mounts
  cases hbt : a.bind_themes <;> cases hbi : a.bind_icons <;>
    cases hbf : a.bind_fonts <;> cases hbe : a.bind_extra_mounts <;> simp

/-- Claim C9: every Atom produced by `from_dict` (hence by `load`) has no
container id and the system-shell flag unset, reports both discriminators
false, and is dispatched by `generate_command` to the chroot (proot)
branch — persistence can never reconstruct a container or pass-through
entity. -/
theorem atom_loaded_is_chroot (d : AtomDict) (a : Atom)
    (h : Atom.from_dict d = .ok a) :
    a.container_id = none ∧ a.system_shell = false
    ∧ a.is_distrobox_container = false ∧ a.is_system_shell = false
    ∧ Atom.load (some d) = .ok a
    ∧ ∀ (gap : Option String → String)
        (pw : String → List String → List (String × String) → List String)
        (dw : Option String → List String → List String)
        (shell launcher : String) (cmd : List String)
        (env : Option (List String)) (te : Bool),
        a.generate_command gap pw dw shell launcher cmd env te
          = (let t := a.generate_proot_command gap pw cmd env
             if te then { t with command := ["sh", launcher] ++ t.command }
             else t) := by
  unfold Atom.from_dict at h
  split at h
  next hc => exact absurd h (by simp)
  next hc =>
    injection h with h
    subst h
    refine ⟨rfl, rfl, rfl, rfl, ?_, ?_⟩
    · show Atom.from_dict d = _
      unfold Atom.from_dict
      rw [if_neg hc]
    · intro gap pw dw shell launcher cmd env te
      cases te <;> rfl

/-- Claim C9 witness: a concrete loaded atom is a chroot-backend atom. -/
theorem atom_loaded_is_chroot_witness :
    (Atom.mk "n" (some "d") (some "r") (some "c") (some "u") none none false
        false false false []).container_id = none :=
  (atom_loaded_is_chroot
    ⟨some "n", some "d", some "r", some "c", some "u", none, none, none, none⟩
    (Atom.mk "n" (some "d") (some "r") (some "c") (some "u") none none false
      false false false [])
    rfl).1

/-- Claim C10: each bind-mount setter assigns the new flag value before
calling `save`; on a distrobox-container or system-shell atom the `save`
call fails (the backend check fires), yet the entity state returned carries
the already-updated flag — the failed operation is not atomic. -/
theorem atom_setters_mutate_then_fail (a : Atom) (s : Bool)
    (h : (a.is_distrobox_container || a.is_system_shell) = true) :
    ((a.set_bind_themes s).2
        = .error (.unresolvedName "AtomsCannotSavePodmanContainers")
      ∧ (a.set_bind_themes s).1.bind_themes = s)
    ∧ ((a.set_bind_icons s).2
        = .error (.unresolvedName "AtomsCannotSavePodmanContainers")
      ∧ (a.set_bind_icons s).1.bind_icons = s)
    ∧ ((a.set_bind_fonts s).2
        = .error (.unresolvedName "AtomsCannotSavePodmanContainers")
      ∧ (a.set_bind_fonts s).1.bind_fonts = s) := by
  unfold Atom.is_distrobox_container Atom.is_system_shell at h
  refine ⟨⟨?_, rfl⟩, ⟨?_, rfl⟩, ⟨?_, rfl⟩⟩ <;>
    simp [Atom.set_bind_themes, Atom.set_bind_icons, Atom.set_bind_fonts,
      Atom.save, Atom.is_distrobox_container, h]

/-- Claim C10 witness: the themes setter on a concrete container atom flips
the in-memory flag even though the save step fails. -/
theorem atom_setters_mutate_then_fail_witness :
    ((Atom.load_from_container "now" "cd" "box" "img" "cid").set_bind_themes
        true).1.bind_themes = true :=
  (atom_setters_mutate_then_fail
    (Atom.load_from_container "now" "cd" "box" "img" "cid") true rfl).1.2

end AtomsCore
